import Mathlib

/-!
# Verification of the image_Converter media-library toolkit

Shallow embedding of the date-extraction, conversion, organizing and
reconciliation logic of the repository (src/main.py, src/heic_converter.py,
src/media_scanner.py, scripts/heic_archive_manager.py), together with
theorems settling the frozen claims about it.

External libraries (PIL, pillow_heif, piexif, ffmpeg, hachoir) and the
filesystem are modelled as oracles: each library call that can raise is a
value of type `Except String _` supplied by the environment, and the
filesystem is an explicit list of paths.  Paths are modelled as lists of
components; `bytes` blobs are modelled as `String`s.
-/

set_option autoImplicit false

namespace ImageConverter

/-- A calendar timestamp as produced by `datetime.strptime`. -/
structure DateTime where
  year : Nat
  month : Nat
  day : Nat
  hour : Nat
  minute : Nat
  second : Nat
deriving DecidableEq, Repr

/-- First-match association-list lookup; models Python `dict.get(k)` /
`k in dict` on the dictionaries used by the program (insertion-ordered,
string- or int-keyed). -/
def lookupA {α β : Type} [DecidableEq α] : List (α × β) → α → Option β
  | [], _ => none
  | (k, v) :: t, a => if k = a then some v else lookupA t a

/-- Python `dict[k] = v`: overwrite the entry if the key is present,
otherwise append it, preserving insertion order. -/
def insertA {α β : Type} [DecidableEq α] (l : List (α × β)) (k : α) (v : β) :
    List (α × β) :=
  if (lookupA l k).isSome then
    l.map (fun p => if p.1 = k then (k, v) else p)
  else
    l ++ [(k, v)]

/-- Python `a or b` on optional strings, where `None` and `""` are falsy. -/
def pyOrStr (a b : Option String) : Option String :=
  match a with
  | some s => if s.isEmpty then b else some s
  | none => b

/-- Python truthiness of an optional string (`None` and `""` are falsy). -/
def truthyStr : Option String → Bool
  | some s => !s.isEmpty
  | none => false

/-- ASCII lowercase of one character. -/
def charLower (c : Char) : Char :=
  if c.toNat ≥ 65 ∧ c.toNat ≤ 90 then Char.ofNat (c.toNat + 32) else c

/-- `str.lower()` as the code applies it to path suffixes (ASCII). -/
def strLower (s : String) : String := ⟨s.data.map charLower⟩

/-- Split a character list on a single separator character (Python
`str.split(sep)` for one-character separators). -/
def splitOnCharAux (c : Char) : List Char → List Char → List (List Char)
  | [], acc => [acc.reverse]
  | x :: xs, acc =>
    if x = c then acc.reverse :: splitOnCharAux c xs []
    else splitOnCharAux c xs (x :: acc)

/-- Split a character list on a single separator character. -/
def splitOnChar (c : Char) (l : List Char) : List (List Char) :=
  splitOnCharAux c l []

/-- Parse a nonempty all-digit character group as a number. -/
def digitsToNat? (l : List Char) : Option Nat :=
  if l.isEmpty then none
  else if l.all Char.isDigit then
    some (l.foldl (fun n c => n * 10 + (c.toNat - 48)) 0)
  else none

/-- Combine parsed date fields, validating calendar ranges as `strptime`
does. -/
def mkDateTime (yn mon dan hn min_ sen : Nat) : Option DateTime :=
  if 1 ≤ mon ∧ mon ≤ 12 ∧ 1 ≤ dan ∧ dan ≤ 31 ∧ hn ≤ 23 ∧ min_ ≤ 59 ∧ sen ≤ 61 then
    some ⟨yn, mon, dan, hn, min_, sen⟩
  else none

/-- `datetime.strptime(s, "%Y:%m:%d %H:%M:%S")`, the EXIF timestamp format:
returns `none` where `strptime` would raise `ValueError`. -/
def parseExifDate (s : String) : Option DateTime :=
  match splitOnChar ' ' s.data with
  | [ds, ts] =>
    match splitOnChar ':' ds, splitOnChar ':' ts with
    | [y, mo, da], [h, mi, se] =>
      match digitsToNat? y, digitsToNat? mo, digitsToNat? da,
          digitsToNat? h, digitsToNat? mi, digitsToNat? se with
      | some yn, some mon, some dan, some hn, some min_, some sen =>
        mkDateTime yn mon dan hn min_ sen
      | _, _, _, _, _, _ => none
    | _, _ => none
  | _ => none

/-- `datetime.strptime(s, "%Y-%m-%dT%H:%M:%S")`, the video `creation_time`
format used after truncating fractional seconds. -/
def parseIsoDate (s : String) : Option DateTime :=
  match splitOnChar 'T' s.data with
  | [ds, ts] =>
    match splitOnChar '-' ds, splitOnChar ':' ts with
    | [y, mo, da], [h, mi, se] =>
      match digitsToNat? y, digitsToNat? mo, digitsToNat? da,
          digitsToNat? h, digitsToNat? mi, digitsToNat? se with
      | some yn, some mon, some dan, some hn, some min_, some sen =>
        mkDateTime yn mon dan hn min_ sen
      | _, _, _, _, _, _ => none
    | _, _ => none
  | _ => none

/-- Python `f"{n:02d}"` for the month component. -/
def pad2 (n : Nat) : String :=
  if n < 10 then "0" ++ toString n else toString n

/-! ## Paths

A file is identified by its directory components relative to a root, a
stem and an extension (the extension carries the leading dot and the
original case, as `pathlib.Path.suffix` does).  `pathlib` edge cases of
suffix parsing (multi-dot names, dotfiles) are represented by whatever
`stem`/`ext` split the file actually has; none of the claims depend on
how a concrete name is split. -/

/-- A file path relative to some root: directory components, stem and
extension (extension includes the leading dot, e.g. `".heic"`). -/
structure RelFile where
  dirs : List String
  stem : String
  ext : String
deriving DecidableEq, Repr

/-- `pathlib.Path.with_suffix`: replace the extension. -/
def RelFile.withSuffix (f : RelFile) (s : String) : RelFile :=
  { f with ext := s }

/-- `root / rel`: the absolute component list of a file under a root. -/
def joinPath (root : List String) (f : RelFile) : List String :=
  root ++ f.dirs ++ [f.stem ++ f.ext]

/-! ## Destination path derivation (claim C2)

The three components derive a destination path from a source path with the
same expression `dest_root / rel_path.with_suffix('.jpg')`; each definition
below embeds the corresponding source lines. -/

/-- `src/main.py:211-212` (also 220-221, 236-237): the Conversion Engine's
batch destination, `self.dest_root / rel_path.with_suffix('.jpg')`. -/
def imageConverterDestPath (destRoot : List String) (rel : RelFile) : List String :=
  joinPath destRoot (rel.withSuffix ".jpg")

/-- `src/heic_converter.py:272-273`: the HEIC converter's destination,
`self.dest_root / rel_path.with_suffix('.jpg')`. -/
def heicConverterDestPath (destRoot : List String) (rel : RelFile) : List String :=
  joinPath destRoot (rel.withSuffix ".jpg")

/-- `scripts/heic_archive_manager.py:74-75`: the Reconciliation Tracker's
expected JPEG, `self.dest_dir / rel_path.with_suffix('.jpg')`. -/
def expectedJpegPath (destDir : List String) (rel : RelFile) : List String :=
  joinPath destDir (rel.withSuffix ".jpg")

/-! ## Enumeration and exclusion filtering (claim C7) -/

/-- `EXCLUDED_PATHS = ['.dtrash']` (`src/main.py:26`, and the
`excluded_paths` fields of `MediaFileScanner` and `HeicConverter`). -/
def EXCLUDED_PATHS : List String := [".dtrash"]

/-- `is_excluded_path`: `any(excluded in path.parts for excluded in
EXCLUDED_PATHS)` — exact component membership on the full path
(`src/main.py:321-323`, `src/media_scanner.py:29-31`,
`src/heic_converter.py:32-34`). -/
def is_excluded_path (parts : List String) : Bool :=
  EXCLUDED_PATHS.any (fun e => parts.contains e)

/-- `ImageConverter.SUPPORTED_TYPES` (`src/main.py:21-25`). -/
def SUPPORTED_TYPES : List String :=
  [".jpg", ".jpeg", ".png", ".heic", ".tiff", ".mov", ".mp4", ".mts", ".gif"]

/-- `MediaFileScanner.ALL_SUPPORTED_TYPES` (`src/media_scanner.py:14-16`). -/
def ALL_SUPPORTED_TYPES : List String :=
  [".jpg", ".jpeg", ".png", ".heic", ".tiff", ".gif", ".mov", ".mp4", ".mts"]

/-- `MediaFileScanner.get_all_media_files` (`src/media_scanner.py:33-41`):
supported extension (lowercased) and not excluded.  `files` is the
`rglob('*')` enumeration of regular files under `srcRoot`. -/
def get_all_media_files (srcRoot : List String) (files : List RelFile) : List RelFile :=
  files.filter (fun f =>
    ALL_SUPPORTED_TYPES.contains (strLower f.ext)
      && !is_excluded_path (joinPath srcRoot f))

/-- `HeicConverter.find_heic_files` (`src/heic_converter.py:36-44`):
`.heic` extension (lowercased) and not excluded. -/
def find_heic_files (srcRoot : List String) (files : List RelFile) : List RelFile :=
  files.filter (fun f =>
    (strLower f.ext) == ".heic" && !is_excluded_path (joinPath srcRoot f))

/-- `ImageConverter.list_supported_files` (`src/main.py:58-63`). -/
def list_supported_files (srcRoot : List String) (files : List RelFile) : List RelFile :=
  files.filter (fun f =>
    SUPPORTED_TYPES.contains (strLower f.ext)
      && !is_excluded_path (joinPath srcRoot f))

/-- `scripts/heic_archive_manager.py:69-70`: `rglob('*.heic')` followed by
`rglob('*.HEIC')` — case-sensitive glob, and no exclusion filter. -/
def globHeicFiles (files : List RelFile) : List RelFile :=
  files.filter (fun f => f.ext == ".heic")
    ++ files.filter (fun f => f.ext == ".HEIC")

/-! ## Reconciliation Tracker (claims C3, C7) -/

/-- One converted-pair descriptor built by `find_converted_pairs`
(`scripts/heic_archive_manager.py:82-89`).  The informational
`heic_size`/`jpeg_size` fields and the redundant `archive_info` copy are
not modelled; no claim mentions them. -/
structure PairInfo where
  heicPath : List String
  jpegPath : List String
  alreadyArchived : Bool
deriving DecidableEq, Repr

/-- A `converted_files` entry (`scripts/heic_archive_manager.py:163-169`);
the timestamp and size fields are informational and not modelled. -/
structure ArchiveRecord where
  jpegPath : List String
  archivePath : List String
deriving DecidableEq, Repr

/-- The persisted tracking state (`scripts/heic_archive_manager.py:51-54`):
`converted_files` keyed by the original HEIC path, plus the append-only
`archive_history` audit log (entries as (heic_path, archive_path)). -/
structure TrackingData where
  convertedFiles : List (List String × ArchiveRecord)
  archiveHistory : List (List String × List String)
deriving DecidableEq, Repr

/-- `HeicArchiveManager.find_converted_pairs`
(`scripts/heic_archive_manager.py:61-96`): enumerate `*.heic`/`*.HEIC`
under `srcDir` (no exclusion filter), compute the expected JPEG, keep the
pair when the JPEG exists on disk, and flag it `already_archived` exactly
when the HEIC path is a key of `converted_files`. -/
def find_converted_pairs (srcDir destDir : List String) (files : List RelFile)
    (jpegExists : List String → Bool) (td : TrackingData) : List PairInfo :=
  (globHeicFiles files).filterMap (fun f =>
    let heicPath := joinPath srcDir f
    let expectedJpeg := expectedJpegPath destDir f
    if jpegExists expectedJpeg then
      some { heicPath := heicPath
             jpegPath := expectedJpeg
             alreadyArchived := (lookupA td.convertedFiles heicPath).isSome }
    else none)

/-- Results of one `archive_converted_heic_files` run: the (source,
archive) moves performed and the per-file errors. -/
structure ArchiveResults where
  archived : List (List String × List String)
  errors : List (List String × String)
deriving DecidableEq, Repr

/-- One iteration of the archive loop
(`scripts/heic_archive_manager.py:150-191`): compute the mirrored archive
path, move the file (`moveOk` is the `shutil.move` oracle; on failure the
pair goes to `errors` and no record is written), then commit the
`converted_files` entry and append to `archive_history`. -/
def archiveStep (srcDir archiveDir : List String) (moveOk : List String → Bool)
    (acc : TrackingData × ArchiveResults) (p : PairInfo) :
    TrackingData × ArchiveResults :=
  let td := acc.1
  let res := acc.2
  let relParts := p.heicPath.drop srcDir.length
  let archivePath := archiveDir ++ relParts
  if moveOk p.heicPath then
    ({ convertedFiles :=
         insertA td.convertedFiles p.heicPath
           { jpegPath := p.jpegPath, archivePath := archivePath }
       archiveHistory := td.archiveHistory ++ [(p.heicPath, archivePath)] },
     { res with archived := res.archived ++ [(p.heicPath, archivePath)] })
  else
    (td, { res with errors := res.errors ++ [(p.heicPath, "move failed")] })

/-- `HeicArchiveManager.archive_converted_heic_files`
(`scripts/heic_archive_manager.py:120-203`): reconcile, keep only pairs
not already archived, and (unless a dry run) move each and commit its
record.  Returns the updated tracking data and the operation results. -/
def archive_converted_heic_files (srcDir destDir archiveDir : List String)
    (files : List RelFile) (jpegExists : List String → Bool)
    (moveOk : List String → Bool) (dryRun : Bool) (td : TrackingData) :
    TrackingData × ArchiveResults :=
  let pairs := find_converted_pairs srcDir destDir files jpegExists td
  let ready := pairs.filter (fun p => !p.alreadyArchived)
  if dryRun then (td, { archived := [], errors := [] })
  else ready.foldl (archiveStep srcDir archiveDir moveOk) (td, { archived := [], errors := [] })

/-! ## HEIC metadata extraction and conversion (claims C4, C5, C9)

Library calls are oracles: `readHeif` is the outcome of
`pillow_heif.read_heif(src)`, `piexifLoad` of `piexif.load(blob)`,
`frombytes` of `Image.frombytes(...)` plus `convert('RGB')`, and
`saveWithExif` / `savePlain` of the two `image.save(dest, 'JPEG', ...)`
calls.  `Except.error e` means the call raised with message `e`. -/

/-- The parts of a `pillow_heif` HEIC handle the code reads: its
`metadata` attribute, a dictionary from tag kind to raw bytes blob or
`None`. -/
structure HeifFile where
  metadata : Option (List (String × String))
deriving DecidableEq, Repr

/-- The parts of a `piexif.load` result the code reads: the `'Exif'` IFD
(holding tag 36867, `DateTimeOriginal`) and the `'0th'` IFD (holding tag
306, `DateTime`), values already decoded to strings. -/
structure ExifDict where
  exifIFD : List (Nat × String)
  zeroth : List (Nat × String)
deriving DecidableEq, Repr

/-- Oracles for one `HeicConverter` conversion attempt on a fixed source
and destination path. -/
structure HeicEnv where
  readHeif : Except String HeifFile
  piexifLoad : String → Except String ExifDict
  frombytes : Except String Unit
  saveWithExif : Except String Unit
  savePlain : Except String Unit

/-- `HeicConverter.extract_heic_metadata` (`src/heic_converter.py:46-79`):
read the HEIC container; take `metadata or {}`; if a truthy `exif` blob is
present, parse it, preferring `DateTimeOriginal` from the Exif IFD and
falling back to `DateTime` from the 0th IFD only when the former is
absent.  Any raise (container read, EXIF parse, `strptime`) is caught and
yields `none` for the date; the metadata dictionary is returned alongside. -/
def extract_heic_metadata (env : HeicEnv) :
    Option DateTime × List (String × String) :=
  match env.readHeif with
  | .error _ => (none, [])
  | .ok hf =>
    let metadata := hf.metadata.getD []
    let creationDate :=
      match lookupA metadata "exif" with
      | none => none
      | some blob =>
        if blob.isEmpty then none
        else
          match env.piexifLoad blob with
          | .error _ => none
          | .ok ed =>
            match lookupA ed.exifIFD 36867 with
            | some ds => parseExifDate ds
            | none =>
              match lookupA ed.zeroth 306 with
              | some ds => parseExifDate ds
              | none => none
    (creationDate, metadata)

/-- The `result` dictionary of `HeicConverter.convert_heic_file`
(`src/heic_converter.py:176-183`); `creation_date` is kept as a
`DateTime` rather than its `isoformat()` string. -/
structure ConversionResult where
  srcPath : String
  destPath : String
  success : Bool
  creationDate : Option DateTime
  exifPreserved : Bool
  error : Option String
deriving DecidableEq, Repr

/-- A successful JPEG write of the destination file, with or without
embedded EXIF. -/
inductive SaveEvent where
  | withExif
  | plain
deriving DecidableEq, Repr

/-- The `try` block of `convert_heic_file`
(`src/heic_converter.py:185-226`).  An `Except.error` carries the raise
message together with the partial result and writes accumulated before
the raise, mirroring mutation of the `result` dictionary. -/
def convertHeicTry (env : HeicEnv) (r0 : ConversionResult) :
    Except (String × ConversionResult × List SaveEvent)
      (ConversionResult × List SaveEvent) :=
  let em := extract_heic_metadata env
  match em.1 with
  | none =>
    .ok ({ r0 with error := some "No creation date found in EXIF data" }, [])
  | some cd =>
    let r1 := { r0 with creationDate := some cd }
    match env.readHeif with
    | .error e => .error (e, r1, [])
    | .ok _ =>
      match env.frombytes with
      | .error e => .error (e, r1, [])
      | .ok _ =>
        match lookupA em.2 "exif" with
        | some blob =>
          if blob.isEmpty then
            match env.savePlain with
            | .ok _ => .ok ({ r1 with success := true, exifPreserved := false }, [.plain])
            | .error e => .error (e, r1, [])
          else
            match env.saveWithExif with
            | .ok _ => .ok ({ r1 with success := true, exifPreserved := true }, [.withExif])
            | .error _ =>
              match env.savePlain with
              | .ok _ => .ok ({ r1 with success := true, exifPreserved := false }, [.plain])
              | .error e2 => .error (e2, r1, [])
        | none =>
          match env.savePlain with
          | .ok _ => .ok ({ r1 with success := true, exifPreserved := false }, [.plain])
          | .error e => .error (e, r1, [])

/-- `HeicConverter.convert_heic_file` (`src/heic_converter.py:171-232`):
run the try block; the outer `except` stores the raise message in
`result['error']` and returns the (partial) result — the function itself
never raises.  The second component lists the successful destination
writes. -/
def convert_heic_file (env : HeicEnv) (src dest : String) :
    ConversionResult × List SaveEvent :=
  let r0 : ConversionResult :=
    { srcPath := src, destPath := dest, success := false,
      creationDate := none, exifPreserved := false, error := none }
  match convertHeicTry env r0 with
  | .ok rw => rw
  | .error (e, r, w) => ({ r with error := some e }, w)

/-- The parts of a `PIL.Image.open` handle `convert_single_file` reads:
`img.info.get('exif', None)`. -/
structure PILImg where
  infoExif : Option String
deriving DecidableEq, Repr

/-- Oracles for one `ImageConverter.convert_single_file` attempt;
`srcExt` is `src_path.suffix`. -/
structure SingleEnv where
  imageOpen : Except String PILImg
  readHeif : Except String HeifFile
  convertRGB : Except String Unit
  saveWithExif : Except String Unit
  savePlain : Except String Unit
  srcExt : String

/-- The `try` block of `ImageConverter.convert_single_file`
(`src/main.py:162-182`), returning the final `exif_status` string.  When
`img.info` has no EXIF and the source is `.heic`, the code re-reads the
container and calls `.get` on `heif_file.metadata` (raising if the
attribute is `None`).  A failed EXIF-embedding save falls back to a plain
save with status `"failed_to_save_exif: <e>"`. -/
def convertSingleTry (env : SingleEnv) : Except String String :=
  match env.imageOpen with
  | .error e => .error e
  | .ok img =>
    let step : Except String (Option String) :=
      if img.infoExif.isNone && ((strLower env.srcExt) == ".heic") then
        match env.readHeif with
        | .error e => .error e
        | .ok hf =>
          match hf.metadata with
          | none => .error "AttributeError: NoneType object has no attribute get"
          | some md => .ok (lookupA md "exif")
      else .ok img.infoExif
    match step with
    | .error e => .error e
    | .ok exifBytes =>
      match env.convertRGB with
      | .error e => .error e
      | .ok _ =>
        match exifBytes with
        | some blob =>
          if blob.isEmpty then
            match env.savePlain with
            | .ok _ => .ok "no_exif"
            | .error e => .error e
          else
            match env.saveWithExif with
            | .ok _ => .ok "preserved"
            | .error e =>
              match env.savePlain with
              | .ok _ => .ok ("failed_to_save_exif: " ++ e)
              | .error e2 => .error e2
        | none =>
          match env.savePlain with
          | .ok _ => .ok "no_exif"
          | .error e => .error e

/-- `ImageConverter.convert_single_file` (`src/main.py:160-186`): run the
try block and append one line to `exif_log`.  The Python function has no
`return` statement, so its return value is always `None`; the first
component is that return value (an eventual `ConversionResult` would
appear there), the second the `exif_log` lines appended. -/
def convert_single_file (env : SingleEnv) (src dest : String) :
    Option ConversionResult × List String :=
  match convertSingleTry env with
  | .ok status => (none, [src ++ " -> " ++ dest ++ " | EXIF: " ++ status])
  | .error e => (none, [src ++ " -> " ++ dest ++ " | FAILED: " ++ e])

/-! ## Date Extractor: `ImageConverter.get_file_date` (claims C1, C8, C10) -/

/-- Oracles for one `get_file_date` call: `ext` is
`file_path.suffix`; `imageOpen` combines `Image.open` and `_getexif()`
(the parsed tag dictionary, or `None`); `ffprobe` yields the
`format.tags` dictionary when the probe result has one; `hachoir` yields
the `creation_date` when the parser and metadata exist; `mtime` is
`file_path.stat().st_mtime`. -/
structure FileDateEnv where
  ext : String
  imageOpen : Except String (Option (List (Nat × String)))
  readHeif : Except String HeifFile
  ffprobe : Except String (Option (List (String × String)))
  hachoir : Except String (Option DateTime)
  mtime : DateTime

/-- Image extensions handled by the first branch of `get_file_date`
(`src/main.py:330`). -/
def IMAGE_DATE_EXTS : List String := [".jpg", ".jpeg", ".png", ".tiff", ".gif"]

/-- Video extensions handled by `get_file_date` (`src/main.py:352`). -/
def VIDEO_DATE_EXTS : List String := [".mov", ".mp4", ".mts"]

/-- `bytes.get(...)`: the raw EXIF blob returned by
`heif_file.metadata.get('exif')` is a `bytes` object, which has no `get`
method — the call always raises `AttributeError`
(`src/main.py:347`). -/
def bytesGet (_blob _key : String) : Except String String :=
  .error "AttributeError: bytes object has no attribute get"

/-- The hachoir fallback inside the video branch's `except` clause
(`src/main.py:363-371`): a date is returned only when the parser exists
and the metadata has `creation_date`; any raise is caught. -/
def hachoirDate (env : FileDateEnv) : Option DateTime :=
  match env.hachoir with
  | .ok (some d) => some d
  | .ok none => none
  | .error _ => none

/-- `ImageConverter.get_file_date` (`src/main.py:325-374`).  Every
successful metadata read returns `some` of the parsed date; every failure
path falls through to line 374, `datetime.fromtimestamp(st_mtime)` — the
function never returns `None`. -/
def get_file_date (env : FileDateEnv) : Option DateTime :=
  let ext := (strLower env.ext)
  if IMAGE_DATE_EXTS.contains ext then
    match env.imageOpen with
    | .error _ => some env.mtime
    | .ok exif =>
      match exif with
      | some tags =>
        if tags.isEmpty then some env.mtime
        else
          match pyOrStr (lookupA tags 36867) (lookupA tags 306) with
          | some s =>
            if s.isEmpty then some env.mtime
            else
              match parseExifDate s with
              | some d => some d
              | none => some env.mtime
          | none => some env.mtime
      | none => some env.mtime
  else if ext == ".heic" then
    match env.readHeif with
    | .error _ => some env.mtime
    | .ok hf =>
      match hf.metadata with
      | none => some env.mtime
      | some md =>
        match lookupA md "exif" with
        | some blob =>
          if blob.isEmpty then some env.mtime
          else
            match bytesGet blob "DateTimeOriginal" with
            | .error _ => some env.mtime
            | .ok s =>
              match parseExifDate s with
              | some d => some d
              | none => some env.mtime
        | none => some env.mtime
  else if VIDEO_DATE_EXTS.contains ext then
    match env.ffprobe with
    | .ok (some tags) =>
      match lookupA tags "creation_time" with
      | some ct =>
        match parseIsoDate ⟨(splitOnChar '.' ct.data).headD []⟩ with
        | some d => some d
        | none =>
          match hachoirDate env with
          | some d => some d
          | none => some env.mtime
      | none => some env.mtime
    | .ok none => some env.mtime
    | .error _ =>
      match hachoirDate env with
      | some d => some d
      | none => some env.mtime
  else some env.mtime

/-! ## Organizer: `ImageConverter.move_images_to_date_folders`
(claims C1, C6)

The loop body for one candidate file, as a transition on the filesystem
(a list of absolute file paths).  `shutil.move` and `mkdir` are assumed
to succeed; the claims concern the decision logic before them. -/

/-- Outcome of one iteration of the organizing loop. -/
inductive OrgOutcome where
  | notCandidate
  | alreadyOrganized
  | errored (msg : String)
  | skippedNoDate
  | skippedCollision
  | moved
deriving DecidableEq, Repr

/-- `src/main.py:300-303`: `date_str = None; if exif: date_str =
exif.get(36867) or exif.get(306)` (an empty or `None` dictionary is
falsy). -/
def orgDateStr (exif : Option (List (Nat × String))) : Option String :=
  match exif with
  | some tags =>
    if tags.isEmpty then none
    else pyOrStr (lookupA tags 36867) (lookupA tags 306)
  | none => none

/-- The absolute source path of the file being organized. -/
def orgSrcPath (srcRoot : List String) (f : RelFile) : List String :=
  joinPath srcRoot f

/-- `src/main.py:294`: first relative component is four digits and the
second is two digits (`isdigit` on the component strings). -/
def isYYYYMM (relParts : List String) : Bool :=
  match relParts with
  | p0 :: p1 :: _ =>
    (!p0.isEmpty && p0.toList.all Char.isDigit && p0.length == 4)
      && (!p1.isEmpty && p1.toList.all Char.isDigit && p1.length == 2)
  | _ => false

/-- The straight-line part of one `move_images_to_date_folders` iteration
(`src/main.py:287-312`), up to (but excluding) the collision check:
either an early exit, or the computed target path
`src_root/YYYY/MM/<name>`. -/
inductive OrgDecision where
  | notCandidate
  | alreadyOrganized
  | errored (msg : String)
  | skippedNoDate
  | target (t : List String)
deriving DecidableEq, Repr

/-- `src/main.py:287-312` for file `f` (path relative to `srcRoot`):
skip non-candidates (unsupported extension or excluded path) and
already-organized files; resolve the EXIF date (`imageOpen` is the
`Image.open(...)._getexif()` oracle; a raise, including `strptime`
failure, is caught by the `except` at line 318); skip when no date;
otherwise produce the target `src_root/YYYY/MM/<name>` (year from
`str(date.year)`, month zero-padded). -/
def orgDecide (srcRoot : List String) (f : RelFile)
    (imageOpen : Except String (Option (List (Nat × String)))) : OrgDecision :=
  let name := f.stem ++ f.ext
  if !(SUPPORTED_TYPES.contains (strLower f.ext))
      || is_excluded_path (orgSrcPath srcRoot f) then
    .notCandidate
  else if isYYYYMM (f.dirs ++ [name]) then
    .alreadyOrganized
  else
    match imageOpen with
    | .error e => .errored e
    | .ok exif =>
      match orgDateStr exif with
      | none => .skippedNoDate
      | some s =>
        if s.isEmpty then .skippedNoDate
        else
          match parseExifDate s with
          | none => .errored "ValueError: time data does not match format"
          | some d => .target (srcRoot ++ [toString d.year, pad2 d.month, name])

/-- One full iteration of `ImageConverter.move_images_to_date_folders`
(`src/main.py:283-319`) as a transition on the filesystem: run the
decision chain, then (`src/main.py:313-317`) move the file to the target
only when no file already exists there, skipping and reporting on
collision.  `shutil.move` removes the source path and creates the
target. -/
def move_images_to_date_folders_step (srcRoot : List String) (f : RelFile)
    (imageOpen : Except String (Option (List (Nat × String))))
    (fs : List (List String)) : OrgOutcome × List (List String) :=
  match orgDecide srcRoot f imageOpen with
  | .notCandidate => (.notCandidate, fs)
  | .alreadyOrganized => (.alreadyOrganized, fs)
  | .errored e => (.errored e, fs)
  | .skippedNoDate => (.skippedNoDate, fs)
  | .target t =>
    if fs.contains t then (.skippedCollision, fs)
    else (.moved, fs.erase (orgSrcPath srcRoot f) ++ [t])

/-- The target path the organizing step would move `f` to, when the
control flow reaches the collision check; `none` otherwise. -/
def orgTarget (srcRoot : List String) (f : RelFile)
    (imageOpen : Except String (Option (List (Nat × String)))) :
    Option (List String) :=
  match orgDecide srcRoot f imageOpen with
  | .target t => some t
  | _ => none

/-! ## Helper lemmas -/

theorem lookupA_nil {α β : Type} [DecidableEq α] (a : α) :
    lookupA ([] : List (α × β)) a = none := rfl

theorem lookupA_cons {α β : Type} [DecidableEq α] (p : α × β) (t : List (α × β)) (a : α) :
    lookupA (p :: t) a = if p.1 = a then some p.2 else lookupA t a := by
  cases p; rfl

theorem lookupA_ne_nil {α β : Type} [DecidableEq α] {l : List (α × β)} {a : α} {v : β}
    (h : lookupA l a = some v) : l.isEmpty = false := by
  cases l with
  | nil => simp [lookupA] at h
  | cons p t => rfl

theorem lookupA_map_replace {α β : Type} [DecidableEq α] (l : List (α × β)) (k : α)
    (v : β) (a : α) (h : k ≠ a) :
    lookupA (l.map (fun p => if p.1 = k then (k, v) else p)) a = lookupA l a := by
  induction l with
  | nil => rfl
  | cons p t ih =>
    by_cases hp : p.1 = k
    · have hpa : p.1 ≠ a := by rw [hp]; exact h
      simp only [List.map_cons, if_pos hp, lookupA_cons, ih]
      simp [h, hpa]
    · simp only [List.map_cons, if_neg hp, lookupA_cons, ih]

theorem lookupA_append_right {α β : Type} [DecidableEq α] (l : List (α × β)) (k : α)
    (v : β) (a : α) (h : k ≠ a) :
    lookupA (l ++ [(k, v)]) a = lookupA l a := by
  induction l with
  | nil => simp [lookupA_cons, lookupA_nil, h]
  | cons p t ih =>
    simp only [List.cons_append, lookupA_cons, ih]

/-- Inserting under a different key does not change a lookup. -/
theorem lookupA_insertA_ne {α β : Type} [DecidableEq α] (l : List (α × β)) (k : α) (v : β)
    (a : α) (h : k ≠ a) : lookupA (insertA l k v) a = lookupA l a := by
  unfold insertA
  split
  · exact lookupA_map_replace l k v a h
  · exact lookupA_append_right l k v a h

/-! ## Theorems settling the claims -/

/-- Claim C2 (confirmed).  Destination path derivation is a pure,
deterministic function of the source path alone: the Conversion Engine
(`src/main.py:211-212`), the HEIC converter (`src/heic_converter.py:272-273`)
and the Reconciliation Tracker (`scripts/heic_archive_manager.py:74-75`)
all compute `dest_root / relative(src, src_root)` with the extension
replaced by `.jpg`, and their derivations agree on every source path.
Each definition takes only the path — independence of file contents is
visible in its type. -/
theorem claim_C2_dest_path_agreement (destRoot : List String) (rel : RelFile) :
    imageConverterDestPath destRoot rel = heicConverterDestPath destRoot rel
      ∧ heicConverterDestPath destRoot rel = expectedJpegPath destRoot rel
      ∧ imageConverterDestPath destRoot rel
          = destRoot ++ rel.dirs ++ [rel.stem ++ ".jpg"] :=
  ⟨rfl, rfl, rfl⟩

/-- Claim C9 (confirmed).  When HEIC metadata extraction yields no
creation date, `convert_heic_file` returns a failed result with error
`"No creation date found in EXIF data"` and performs no destination
write — even when decoding would succeed, since the date check
(`src/heic_converter.py:189-191`) precedes any decode or save. -/
theorem claim_C9_no_date_no_conversion (env : HeicEnv) (src dest : String)
    (h : (extract_heic_metadata env).1 = none) :
    convert_heic_file env src dest =
      ({ srcPath := src, destPath := dest, success := false, creationDate := none,
         exifPreserved := false, error := some "No creation date found in EXIF data" },
       []) := by
  simp only [convert_heic_file, convertHeicTry, h]

/-- Environment of a decodable HEIC file whose container metadata carries
no EXIF block at all. -/
def c9Env : HeicEnv :=
  { readHeif := .ok ⟨some []⟩, piexifLoad := fun _ => .error "unreached",
    frombytes := .ok (), saveWithExif := .ok (), savePlain := .ok () }

/-- Witness for C9 at a concrete decodable HEIC file with no EXIF date. -/
theorem claim_C9_witness :
    (extract_heic_metadata c9Env).1 = none
      ∧ convert_heic_file c9Env "a.heic" "a.jpg" =
          ({ srcPath := "a.heic", destPath := "a.jpg", success := false,
             creationDate := none, exifPreserved := false,
             error := some "No creation date found in EXIF data" }, []) :=
  ⟨rfl, claim_C9_no_date_no_conversion c9Env "a.heic" "a.jpg" rfl⟩

/-- Claim C10 (confirmed).  For every `.heic` file, `get_file_date`
returns the filesystem modification time and never a metadata-derived
date: its HEIC branch calls `.get('DateTimeOriginal')` on the raw EXIF
bytes blob (`src/main.py:347`), which always raises `AttributeError`;
the exception is caught and the function falls through to
`datetime.fromtimestamp(st_mtime)` (`src/main.py:374`). -/
theorem claim_C10_heic_date_always_mtime (env : FileDateEnv)
    (h : (strLower env.ext) = ".heic") :
    get_file_date env = some env.mtime := by
  have h1 : IMAGE_DATE_EXTS.contains ".heic" = false := by decide
  simp only [get_file_date, h, h1, Bool.false_eq_true, if_false, beq_self_eq_true, if_true]
  rcases env.readHeif with e | ⟨md⟩
  · rfl
  · rcases md with _ | l
    · rfl
    · rcases hex : lookupA l "exif" with _ | blob
      · simp only [hex]
      · simp only [hex]
        by_cases hb : blob.isEmpty
        · simp [hb]
        · simp [hb, bytesGet]

/-- Environment of a HEIC file carrying a valid embedded
`DateTimeOriginal`, whose mtime differs from it. -/
def c10Env : FileDateEnv :=
  { ext := ".heic", imageOpen := .error "unreached",
    readHeif := .ok ⟨some [("exif", "RAWEXIFBYTES")]⟩,
    ffprobe := .error "unreached", hachoir := .error "unreached",
    mtime := ⟨1999, 1, 2, 3, 4, 5⟩ }

/-- Witness for C10 at a concrete HEIC file with an EXIF blob present. -/
theorem claim_C10_witness :
    strLower ".heic" = ".heic"
      ∧ get_file_date c10Env = some ⟨1999, 1, 2, 3, 4, 5⟩ :=
  ⟨by decide, claim_C10_heic_date_always_mtime c10Env (by decide)⟩

/-- Environment where `Image.open` raises, so the conversion attempt
fails. -/
def c4Env : SingleEnv :=
  { imageOpen := .error "cannot identify image file", readHeif := .error "unreached",
    convertRGB := .ok (), saveWithExif := .ok (), savePlain := .ok (),
    srcExt := ".png" }

/-- Counterexample to claim C4 as stated.  The claim asserts that
`convert_single_file` returns a `ConversionResult` with `success=False`
and the failure reason; in fact `convert_single_file` has no `return`
statement — on a failing input its Python return value is `None`
(modelled as the first component) and the failure is only recorded as an
`exif_log` line. -/
theorem claim_C4_counterexample :
    convert_single_file c4Env "a.png" "b.jpg"
      = (none, ["a.png -> b.jpg | FAILED: cannot identify image file"]) := rfl

/-- Claim C4 (corrected).  Neither conversion function propagates an
exception: `convert_heic_file` catches everything and returns a
`ConversionResult` that, whenever `success = false`, carries a failure
reason in `error`; `convert_single_file` also catches everything, but it
returns `None` rather than a `ConversionResult`, reporting a raise as a
`"FAILED: <reason>"` `exif_log` entry. -/
theorem claim_C4_amended_never_raises (env : HeicEnv) (s d : String)
    (env2 : SingleEnv) (s2 d2 : String) :
    ((convert_heic_file env s d).1.success = false →
       ((convert_heic_file env s d).1.error).isSome = true)
      ∧ (convert_single_file env2 s2 d2).1 = none
      ∧ (∀ e : String, convertSingleTry env2 = Except.error e →
          (convert_single_file env2 s2 d2).2
            = [s2 ++ " -> " ++ d2 ++ " | FAILED: " ++ e]) := by
  refine ⟨?_, ?_, ?_⟩
  · intro hs
    rcases hem : (extract_heic_metadata env).1 with _ | cd
    · simp [convert_heic_file, convertHeicTry, hem]
    · rcases hrh : env.readHeif with e1 | hf
      · simp [convert_heic_file, convertHeicTry, hem, hrh]
      · rcases hfb : env.frombytes with e2 | u
        · simp [convert_heic_file, convertHeicTry, hem, hrh, hfb]
        · rcases hex : lookupA (extract_heic_metadata env).2 "exif" with _ | blob
          · rcases hsp : env.savePlain with e3 | u2
            · simp [convert_heic_file, convertHeicTry, hem, hrh, hfb, hex, hsp]
            · simp [convert_heic_file, convertHeicTry, hem, hrh, hfb, hex, hsp] at hs
          · by_cases hb : blob.isEmpty
            · rcases hsp : env.savePlain with e3 | u2
              · simp [convert_heic_file, convertHeicTry, hem, hrh, hfb, hex, hb, hsp]
              · simp [convert_heic_file, convertHeicTry, hem, hrh, hfb, hex, hb, hsp] at hs
            · rcases hse : env.saveWithExif with e3 | u2
              · rcases hsp : env.savePlain with e4 | u3
                · simp [convert_heic_file, convertHeicTry, hem, hrh, hfb, hex, hb, hse, hsp]
                · simp [convert_heic_file, convertHeicTry, hem, hrh, hfb, hex, hb, hse, hsp] at hs
              · simp [convert_heic_file, convertHeicTry, hem, hrh, hfb, hex, hb, hse] at hs
  · unfold convert_single_file
    cases convertSingleTry env2 <;> rfl
  · intro e he
    simp [convert_single_file, he]

/-- Environments for the C4 witness: a HEIC conversion failing for lack
of a date, and a single-file conversion failing on open. -/
theorem claim_C4_amended_witness :
    ((convert_heic_file c9Env "a.heic" "a.jpg").1.error).isSome = true
      ∧ (convert_single_file c4Env "a.png" "b.jpg").1 = none
      ∧ (convert_single_file c4Env "a.png" "b.jpg").2
          = ["a.png -> b.jpg | FAILED: cannot identify image file"] := by
  have h := claim_C4_amended_never_raises c9Env "a.heic" "a.jpg" c4Env "a.png" "b.jpg"
  exact ⟨h.1 rfl, h.2.1, h.2.2 "cannot identify image file" rfl⟩

/-- Claim C5 (confirmed).  Metadata-embedding failure is downgraded and
never fatal: when a metadata blob was found and the JPEG encode with it
raises, `convert_heic_file` retries the encode without metadata, marks
`exif_preserved = false`, and still reports `success = true`
(`src/heic_converter.py:210-223`); `convert_single_file` likewise retries
and logs status `failed_to_save_exif: <reason>` instead of a failure
(`src/main.py:169-179`). -/
theorem claim_C5_metadata_downgrade
    (env : HeicEnv) (s d : String) (cd : DateTime) (blob e : String)
    (env2 : SingleEnv) (s2 d2 blob2 e2 : String) :
    ((extract_heic_metadata env).1 = some cd →
      lookupA (extract_heic_metadata env).2 "exif" = some blob →
      blob.isEmpty = false →
      env.frombytes = Except.ok () →
      env.saveWithExif = Except.error e →
      env.savePlain = Except.ok () →
      convert_heic_file env s d =
        ({ srcPath := s, destPath := d, success := true, creationDate := some cd,
           exifPreserved := false, error := none }, [SaveEvent.plain]))
      ∧ (env2.imageOpen = Except.ok ⟨some blob2⟩ →
         blob2.isEmpty = false →
         env2.convertRGB = Except.ok () →
         env2.saveWithExif = Except.error e2 →
         env2.savePlain = Except.ok () →
         convert_single_file env2 s2 d2 =
           (none, [s2 ++ " -> " ++ d2 ++ " | EXIF: " ++ ("failed_to_save_exif: " ++ e2)])) := by
  constructor
  · intro h1 h2 h3 h4 h5 h6
    rcases hrh : env.readHeif with er | hf
    · rw [extract_heic_metadata, hrh] at h1
      simp at h1
    · simp only [convert_heic_file, convertHeicTry, h1, hrh, h4, h2, h3,
        Bool.false_eq_true, if_false, h5, h6]
  · intro h1 h2 h3 h4 h5
    simp [convert_single_file, convertSingleTry, h1, h2, h3, h4, h5]

/-- Environment of a HEIC file whose EXIF embeds successfully parsed
dates but whose EXIF-carrying save raises. -/
def c5Env : HeicEnv :=
  { readHeif := .ok ⟨some [("exif", "BLOB")]⟩,
    piexifLoad := fun _ => .ok ⟨[(36867, "2020:03:15 10:00:00")], []⟩,
    frombytes := .ok (), saveWithExif := .error "embed fail", savePlain := .ok () }

/-- Single-file environment whose EXIF-carrying save raises. -/
def c5Env2 : SingleEnv :=
  { imageOpen := .ok ⟨some "BLOB"⟩, readHeif := .error "unreached",
    convertRGB := .ok (), saveWithExif := .error "embed fail",
    savePlain := .ok (), srcExt := ".png" }

/-- Witness for C5 at concrete environments where embedding fails but the
plain encode succeeds. -/
theorem claim_C5_witness :
    convert_heic_file c5Env "a.heic" "a.jpg" =
        ({ srcPath := "a.heic", destPath := "a.jpg", success := true,
           creationDate := some ⟨2020, 3, 15, 10, 0, 0⟩,
           exifPreserved := false, error := none }, [SaveEvent.plain])
      ∧ convert_single_file c5Env2 "a.png" "b.jpg" =
          (none, ["a.png -> b.jpg | EXIF: failed_to_save_exif: embed fail"]) := by
  have h := claim_C5_metadata_downgrade c5Env "a.heic" "a.jpg" ⟨2020, 3, 15, 10, 0, 0⟩
    "BLOB" "embed fail" c5Env2 "a.png" "b.jpg" "BLOB" "embed fail"
  exact ⟨h.1 (by decide) rfl rfl rfl rfl rfl, h.2 rfl rfl rfl rfl rfl⟩

/-- Claim C8 (confirmed).  Date-resolution priority for parsed tag data:
`extract_heic_metadata` reads `DateTimeOriginal` (tag 36867, Exif IFD)
first and reads `DateTime` (tag 306, 0th IFD) only when the former is
absent (`src/heic_converter.py:64-71`); `get_file_date`'s still-image
branch computes `exif.get(36867) or exif.get(306)` (`src/main.py:335`).
With both tags present (values arbitrary, in particular disagreeing)
and `DateTimeOriginal` parseable, the resolved date is the
`DateTimeOriginal` value. -/
theorem claim_C8_datetimeoriginal_priority
    (env : HeicEnv) (hf : HeifFile) (md : List (String × String)) (blob : String)
    (ed : ExifDict) (s1 s2 : String) (d1 : DateTime)
    (fenv : FileDateEnv) (tags : List (Nat × String)) (t1 t2 : String) (e1 : DateTime) :
    ((env.readHeif = Except.ok hf → hf.metadata = some md →
      lookupA md "exif" = some blob → blob.isEmpty = false →
      env.piexifLoad blob = Except.ok ed →
      lookupA ed.exifIFD 36867 = some s1 → parseExifDate s1 = some d1 →
      lookupA ed.zeroth 306 = some s2 →
      (extract_heic_metadata env).1 = some d1)
    ∧ (IMAGE_DATE_EXTS.contains (strLower fenv.ext) = true →
       fenv.imageOpen = Except.ok (some tags) →
       lookupA tags 36867 = some t1 → t1.isEmpty = false →
       parseExifDate t1 = some e1 →
       lookupA tags 306 = some t2 →
       get_file_date fenv = some e1)) := by
  constructor
  · intro h1 h2 h3 h4 h5 h6 h7 h8
    simp only [extract_heic_metadata, h1, h2, Option.getD_some, h3, h4,
      Bool.false_eq_true, if_false, h5, h6, h7]
  · intro h1 h2 h3 h4 h5 h6
    have htne : tags.isEmpty = false := lookupA_ne_nil h3
    simp only [get_file_date, h1, if_true, h2, htne, Bool.false_eq_true, if_false,
      pyOrStr, h3, h4, h5]

/-- HEIC environment carrying both a `DateTimeOriginal` and a disagreeing
`DateTime` tag. -/
def c8Env : HeicEnv :=
  { readHeif := .ok ⟨some [("exif", "BLOB")]⟩,
    piexifLoad := fun _ =>
      .ok ⟨[(36867, "2020:03:15 10:00:00")], [(306, "2001:01:01 00:00:00")]⟩,
    frombytes := .ok (), saveWithExif := .ok (), savePlain := .ok () }

/-- Image-file environment carrying both tags with disagreeing values. -/
def c8FEnv : FileDateEnv :=
  { ext := ".jpg",
    imageOpen := .ok (some [(36867, "2020:03:15 10:00:00"), (306, "2001:01:01 00:00:00")]),
    readHeif := .error "unreached", ffprobe := .error "unreached",
    hachoir := .error "unreached", mtime := ⟨1999, 1, 2, 3, 4, 5⟩ }

/-- Witness for C8: with conflicting `DateTimeOriginal` and `DateTime`
tags, both resolvers return the `DateTimeOriginal` value. -/
theorem claim_C8_witness :
    (extract_heic_metadata c8Env).1 = some ⟨2020, 3, 15, 10, 0, 0⟩
      ∧ get_file_date c8FEnv = some ⟨2020, 3, 15, 10, 0, 0⟩ := by
  have h := claim_C8_datetimeoriginal_priority c8Env ⟨some [("exif", "BLOB")]⟩
    [("exif", "BLOB")] "BLOB" ⟨[(36867, "2020:03:15 10:00:00")], [(306, "2001:01:01 00:00:00")]⟩
    "2020:03:15 10:00:00" "2001:01:01 00:00:00" ⟨2020, 3, 15, 10, 0, 0⟩
    c8FEnv [(36867, "2020:03:15 10:00:00"), (306, "2001:01:01 00:00:00")]
    "2020:03:15 10:00:00" "2001:01:01 00:00:00" ⟨2020, 3, 15, 10, 0, 0⟩
  exact ⟨h.1 rfl rfl rfl rfl rfl rfl (by decide) rfl,
         h.2 (by decide) rfl rfl rfl (by decide) rfl⟩

/-- A HEIC file inside a `.dtrash` folder. -/
def c7File : RelFile := ⟨[".dtrash"], "IMG_1", ".heic"⟩

/-- Counterexample to claim C7 as stated.  The claim asserts that a file
whose path contains `.dtrash` is excluded from all file-enumeration
operations of every component, including the Reconciliation Tracker's
enumeration when computing converted pairs; but
`find_converted_pairs` (`scripts/heic_archive_manager.py:69-70`) uses a
bare `rglob` with no exclusion filter: an excluded HEIC file whose
converted JPEG exists appears in its pair list. -/
theorem claim_C7_counterexample :
    is_excluded_path (joinPath ["root"] c7File) = true
      ∧ (find_converted_pairs ["root"] ["dest"] [c7File] (fun _ => true)
          ⟨[], []⟩).map PairInfo.heicPath = [["root", ".dtrash", "IMG_1.heic"]] :=
  ⟨rfl, rfl⟩

/-- Claim C7 (corrected).  Exclusion filtering covers the Scanner, the
HEIC converter and the `ImageConverter` enumerations — every file with an
excluded path component is absent from their results regardless of
extension — but not the Reconciliation Tracker: `find_converted_pairs`
enumerates HEIC files without the exclusion filter, so an excluded HEIC
file with an existing converted JPEG appears among its pairs. -/
theorem claim_C7_amended_exclusion_not_universal (srcRoot destDir : List String)
    (files : List RelFile) (f : RelFile) (jpegExists : List String → Bool)
    (td : TrackingData)
    (hmem : f ∈ files) (hexcl : is_excluded_path (joinPath srcRoot f) = true) :
    f ∉ get_all_media_files srcRoot files
      ∧ f ∉ find_heic_files srcRoot files
      ∧ f ∉ list_supported_files srcRoot files
      ∧ (f.ext = ".heic" → jpegExists (expectedJpegPath destDir f) = true →
          joinPath srcRoot f
            ∈ (find_converted_pairs srcRoot destDir files jpegExists td).map
                PairInfo.heicPath) := by
  refine ⟨?_, ?_, ?_, ?_⟩
  · simp [get_all_media_files, List.mem_filter, hexcl]
  · simp [find_heic_files, List.mem_filter, hexcl]
  · simp [list_supported_files, List.mem_filter, hexcl]
  · intro hext hjp
    have hg : f ∈ globHeicFiles files := by
      unfold globHeicFiles
      exact List.mem_append_left _ (List.mem_filter.mpr ⟨hmem, by simp [hext]⟩)
    have hp : ({ heicPath := joinPath srcRoot f,
                 jpegPath := expectedJpegPath destDir f,
                 alreadyArchived :=
                   (lookupA td.convertedFiles (joinPath srcRoot f)).isSome } : PairInfo)
        ∈ find_converted_pairs srcRoot destDir files jpegExists td := by
      unfold find_converted_pairs
      exact List.mem_filterMap.mpr ⟨f, hg, by simp [hjp]⟩
    exact List.mem_map.mpr ⟨_, hp, rfl⟩

/-- A HEIC file under a nested `.dtrash` folder, for the C7 witness. -/
def c7WFile : RelFile := ⟨["x", ".dtrash"], "Photo", ".heic"⟩

/-- Witness for the amended C7 at a concrete excluded HEIC file. -/
theorem claim_C7_amended_witness :
    c7WFile ∉ get_all_media_files ["root"] [c7WFile]
      ∧ c7WFile ∉ find_heic_files ["root"] [c7WFile]
      ∧ c7WFile ∉ list_supported_files ["root"] [c7WFile]
      ∧ joinPath ["root"] c7WFile
          ∈ (find_converted_pairs ["root"] ["d"] [c7WFile] (fun _ => true)
              ⟨[], []⟩).map PairInfo.heicPath := by
  have h := claim_C7_amended_exclusion_not_universal ["root"] ["d"] [c7WFile] c7WFile
    (fun _ => true) ⟨[], []⟩ (by simp) (by decide)
  exact ⟨h.1, h.2.1, h.2.2.1, h.2.2.2 rfl rfl⟩

/-- Claim C6 (confirmed).  Organizer collision safety: whenever the
organizing step reaches the collision check with target `t`
(`src/main.py:312-317`), it moves the file only if no file named the
same already exists at `t`; on collision it skips, leaving the
filesystem — including both existing files — untouched; and every
non-move outcome leaves the filesystem unchanged (no overwrite, no
alternative name, no deletion). -/
theorem claim_C6_organizer_collision_safety (srcRoot : List String) (f : RelFile)
    (imageOpen : Except String (Option (List (Nat × String))))
    (fs : List (List String)) (t : List String)
    (h : orgTarget srcRoot f imageOpen = some t) :
    (fs.contains t = true →
       move_images_to_date_folders_step srcRoot f imageOpen fs
         = (OrgOutcome.skippedCollision, fs))
      ∧ (fs.contains t = false →
         move_images_to_date_folders_step srcRoot f imageOpen fs
           = (OrgOutcome.moved, fs.erase (orgSrcPath srcRoot f) ++ [t]))
      ∧ ((move_images_to_date_folders_step srcRoot f imageOpen fs).1 ≠ OrgOutcome.moved →
         (move_images_to_date_folders_step srcRoot f imageOpen fs).2 = fs) := by
  unfold orgTarget at h
  unfold move_images_to_date_folders_step
  rcases hd : orgDecide srcRoot f imageOpen with _ | _ | e | _ | t'
  · rw [hd] at h; simp at h
  · rw [hd] at h; simp at h
  · rw [hd] at h; simp at h
  · rw [hd] at h; simp at h
  · rw [hd] at h
    have ht : t' = t := by simpa using h
    subst ht
    refine ⟨fun hc => ?_, fun hc => ?_, fun hm => ?_⟩
    · have hc' : t' ∈ fs := by simpa using hc
      simp [hc']
    · have hc' : t' ∉ fs := by simpa using hc
      simp [hc']
    · by_cases hc' : t' ∈ fs
      · simp [hc']
      · exact absurd (by simp [hc']) hm

/-- A candidate image outside `YYYY/MM` with a parseable EXIF date. -/
def c6File : RelFile := ⟨["misc"], "a", ".jpg"⟩

/-- Its EXIF oracle: `DateTimeOriginal = 2020:03:15 10:00:00`. -/
def c6Exif : Except String (Option (List (Nat × String))) :=
  .ok (some [(36867, "2020:03:15 10:00:00")])

/-- Witness for C6: with the target occupied the file is skipped and the
filesystem is unchanged; with the target free it is moved there. -/
theorem claim_C6_witness :
    move_images_to_date_folders_step ["root"] c6File c6Exif
        [["root", "2020", "03", "a.jpg"], ["root", "misc", "a.jpg"]]
      = (OrgOutcome.skippedCollision,
         [["root", "2020", "03", "a.jpg"], ["root", "misc", "a.jpg"]])
      ∧ move_images_to_date_folders_step ["root"] c6File c6Exif
          [["root", "misc", "a.jpg"]]
        = (OrgOutcome.moved, [["root", "2020", "03", "a.jpg"]]) := by
  have h1 := claim_C6_organizer_collision_safety ["root"] c6File c6Exif
    [["root", "2020", "03", "a.jpg"], ["root", "misc", "a.jpg"]]
    ["root", "2020", "03", "a.jpg"] (by decide)
  have h2 := claim_C6_organizer_collision_safety ["root"] c6File c6Exif
    [["root", "misc", "a.jpg"]] ["root", "2020", "03", "a.jpg"] (by decide)
  exact ⟨h1.1 (by decide), h2.2.1 (by decide)⟩

/-- A video file for which both the ffmpeg probe and the hachoir fallback
raise. -/
def c1Env : FileDateEnv :=
  { ext := ".mov", imageOpen := .error "unreached", readHeif := .error "unreached",
    ffprobe := .error "probe failed", hachoir := .error "hachoir failed",
    mtime := ⟨1999, 1, 2, 3, 4, 5⟩ }

/-- Counterexample to claim C1 as stated.  The claim says that when all
metadata-based date sources fail or throw, `get_file_date` reports
"no date found" (returns absent) rather than itself returning the
filesystem modification time.  At a video file where both probes raise,
`get_file_date` returns `some mtime` (`src/main.py:373-374`), not
absence. -/
theorem claim_C1_counterexample :
    get_file_date c1Env = some c1Env.mtime ∧ get_file_date c1Env ≠ none := by
  constructor
  · rfl
  · simp [get_file_date, c1Env, hachoirDate]

/-- Branch-selection helper: a video-extension file whose probes both
raise resolves to the modification time. -/
theorem get_file_date_video_fallback (env : FileDateEnv) (pe he : String)
    (hi : IMAGE_DATE_EXTS.contains (strLower env.ext) = false)
    (hh : ((strLower env.ext) == ".heic") = false)
    (hv : VIDEO_DATE_EXTS.contains (strLower env.ext) = true)
    (hp : env.ffprobe = Except.error pe) (hha : env.hachoir = Except.error he) :
    get_file_date env = some env.mtime := by
  simp only [get_file_date, hi, hh, hv, Bool.false_eq_true, if_false, if_true,
    hp, hha, hachoirDate]

/-- Claim C1 (corrected).  `get_file_date` never reports absence: when
every metadata source fails or throws it itself returns the filesystem
modification time (`src/main.py:373-374`) — shown here for a video file
with both probes raising and for a still image whose EXIF read raises.
The Organizer does not consume that fallback at all:
`move_images_to_date_folders` resolves EXIF directly and, when no date
tag is present, skips the file rather than substituting mtime
(`src/main.py:304-306`). -/
theorem claim_C1_amended_mtime_inside_extractor :
    (∀ (env : FileDateEnv) (pe he : String),
       strLower env.ext ∈ VIDEO_DATE_EXTS →
       env.ffprobe = Except.error pe → env.hachoir = Except.error he →
       get_file_date env = some env.mtime)
      ∧ (∀ (env : FileDateEnv) (e : String),
         IMAGE_DATE_EXTS.contains (strLower env.ext) = true →
         env.imageOpen = Except.error e →
         get_file_date env = some env.mtime)
      ∧ (∀ (srcRoot : List String) (f : RelFile)
           (exif : Option (List (Nat × String))) (fs : List (List String)),
         SUPPORTED_TYPES.contains (strLower f.ext) = true →
         is_excluded_path (orgSrcPath srcRoot f) = false →
         isYYYYMM (f.dirs ++ [f.stem ++ f.ext]) = false →
         truthyStr (orgDateStr exif) = false →
         move_images_to_date_folders_step srcRoot f (Except.ok exif) fs
           = (OrgOutcome.skippedNoDate, fs)) := by
  refine ⟨?_, ?_, ?_⟩
  · intro env pe he hv hp hha
    simp only [VIDEO_DATE_EXTS, List.mem_cons, List.mem_singleton,
      List.not_mem_nil, or_false] at hv
    rcases hv with h | h | h
    · exact get_file_date_video_fallback env pe he (by rw [h]; decide)
        (by rw [h]; decide) (by rw [h]; decide) hp hha
    · exact get_file_date_video_fallback env pe he (by rw [h]; decide)
        (by rw [h]; decide) (by rw [h]; decide) hp hha
    · exact get_file_date_video_fallback env pe he (by rw [h]; decide)
        (by rw [h]; decide) (by rw [h]; decide) hp hha
  · intro env e hi hopen
    have hi2 : strLower env.ext ∈ IMAGE_DATE_EXTS := by simpa using hi
    simp [get_file_date, hi2, hopen]
  · intro srcRoot f exif fs hsup hexcl horg hds
    have hsup2 : strLower f.ext ∈ SUPPORTED_TYPES := by simpa using hsup
    rcases hod : orgDateStr exif with _ | s
    · simp [move_images_to_date_folders_step, orgDecide, hsup2, hexcl, horg, hod]
    · have hse : s.isEmpty = true := by
        rw [hod] at hds
        simpa [truthyStr] using hds
      simp [move_images_to_date_folders_step, orgDecide, hsup2, hexcl, horg, hod, hse]

/-- An image file whose `Image.open` / `_getexif` raises. -/
def c1ImgEnv : FileDateEnv :=
  { ext := ".png", imageOpen := .error "no exif support", readHeif := .error "unreached",
    ffprobe := .error "unreached", hachoir := .error "unreached",
    mtime := ⟨1998, 6, 7, 8, 9, 10⟩ }

/-- Witness for the amended C1: mtime fallback happens inside
`get_file_date` for both a video and an image with failing sources, and
the Organizer skips a dateless file in place. -/
theorem claim_C1_amended_witness :
    get_file_date c1Env = some ⟨1999, 1, 2, 3, 4, 5⟩
      ∧ get_file_date c1ImgEnv = some ⟨1998, 6, 7, 8, 9, 10⟩
      ∧ move_images_to_date_folders_step ["root"] ⟨["misc"], "b", ".png"⟩
          (Except.ok none) [["root", "misc", "b.png"]]
        = (OrgOutcome.skippedNoDate, [["root", "misc", "b.png"]]) := by
  have h := claim_C1_amended_mtime_inside_extractor
  exact ⟨h.1 c1Env "probe failed" "hachoir failed" (by decide) rfl rfl,
         h.2.1 c1ImgEnv "no exif support" (by decide) rfl,
         h.2.2 ["root"] ⟨["misc"], "b", ".png"⟩ none [["root", "misc", "b.png"]]
           (by decide) (by decide) (by decide) rfl⟩

/-- Every pair produced by `find_converted_pairs` carries the
`already_archived` flag computed from `converted_files` membership at its
own HEIC path. -/
theorem mem_find_converted_pairs_alreadyArchived
    (srcDir destDir : List String) (files : List RelFile)
    (jpegExists : List String → Bool) (td : TrackingData) (q : PairInfo)
    (hq : q ∈ find_converted_pairs srcDir destDir files jpegExists td) :
    q.alreadyArchived = (lookupA td.convertedFiles q.heicPath).isSome := by
  unfold find_converted_pairs at hq
  obtain ⟨f, hf, hfq⟩ := List.mem_filterMap.mp hq
  by_cases hj : jpegExists (expectedJpegPath destDir f) = true
  · simp only [hj, if_true] at hfq
    cases hfq
    rfl
  · simp [hj] at hfq

/-- Folding the archive loop over pairs none of which is path `p`
preserves the record at `p` and performs no move of `p`. -/
theorem archive_fold_preserves (srcDir archiveDir : List String)
    (moveOk : List String → Bool) (p : List String) :
    ∀ (ready : List PairInfo) (acc : TrackingData × ArchiveResults),
      (∀ q ∈ ready, q.heicPath ≠ p) →
      p ∉ acc.2.archived.map Prod.fst →
      lookupA (ready.foldl (archiveStep srcDir archiveDir moveOk) acc).1.convertedFiles p
          = lookupA acc.1.convertedFiles p
        ∧ p ∉ (ready.foldl (archiveStep srcDir archiveDir moveOk) acc).2.archived.map
            Prod.fst := by
  intro ready
  induction ready with
  | nil => exact fun acc _ hacc => ⟨rfl, hacc⟩
  | cons q t ih =>
    intro acc hq hacc
    have hqp : q.heicPath ≠ p := hq q (List.mem_cons_self q t)
    have ht : ∀ r ∈ t, r.heicPath ≠ p := fun r hr => hq r (List.mem_cons_of_mem q hr)
    have hA : lookupA (archiveStep srcDir archiveDir moveOk acc q).1.convertedFiles p
        = lookupA acc.1.convertedFiles p := by
      unfold archiveStep
      by_cases hmo : moveOk q.heicPath
      · simp only [hmo, if_true]
        exact lookupA_insertA_ne _ _ _ _ hqp
      · simp [hmo]
    have hB : p ∉ (archiveStep srcDir archiveDir moveOk acc q).2.archived.map Prod.fst := by
      unfold archiveStep
      by_cases hmo : moveOk q.heicPath
      · simp only [hmo, if_true, List.map_append, List.map_cons, List.map_nil,
          List.mem_append, List.mem_singleton]
        rintro (hmem | hmem)
        · exact hacc hmem
        · exact hqp hmem.symm
      · simpa [hmo] using hacc
    simp only [List.foldl_cons]
    obtain ⟨hl, hm⟩ := ih (archiveStep srcDir archiveDir moveOk acc q) ht hB
    exact ⟨hl.trans hA, hm⟩

/-- Claim C3 (confirmed).  Archive idempotence: for every source path `p`
that already has a `converted_files` record, a run of the archive
operation performs no filesystem move of `p` and leaves `p`'s record
unchanged; pair classification (and hence the archive batch) depends only
on `converted_files`, never on `archive_history`; and when every pair is
already archived the run moves nothing and leaves the tracking state —
in particular the record count — unchanged. -/
theorem claim_C3_archive_idempotent (srcDir destDir archiveDir : List String)
    (files : List RelFile) (jpegExists moveOk : List String → Bool)
    (td : TrackingData) (p : List String)
    (h : (lookupA td.convertedFiles p).isSome = true) :
    p ∉ ((archive_converted_heic_files srcDir destDir archiveDir files jpegExists
            moveOk false td).2.archived.map Prod.fst)
      ∧ lookupA (archive_converted_heic_files srcDir destDir archiveDir files jpegExists
            moveOk false td).1.convertedFiles p = lookupA td.convertedFiles p
      ∧ (∀ td2 : TrackingData, td2.convertedFiles = td.convertedFiles →
          find_converted_pairs srcDir destDir files jpegExists td2
            = find_converted_pairs srcDir destDir files jpegExists td)
      ∧ ((∀ q ∈ find_converted_pairs srcDir destDir files jpegExists td,
            q.alreadyArchived = true) →
          (archive_converted_heic_files srcDir destDir archiveDir files jpegExists
              moveOk false td).1 = td
            ∧ (archive_converted_heic_files srcDir destDir archiveDir files jpegExists
                moveOk false td).2.archived = []) := by
  have hready : ∀ q ∈ (find_converted_pairs srcDir destDir files jpegExists td).filter
      (fun r => !r.alreadyArchived), q.heicPath ≠ p := by
    intro q hq hcontra
    obtain ⟨hqp, hqf⟩ := List.mem_filter.mp hq
    have harch := mem_find_converted_pairs_alreadyArchived srcDir destDir files
      jpegExists td q hqp
    rw [hcontra, h] at harch
    rw [harch] at hqf
    simp at hqf
  have hfold := archive_fold_preserves srcDir archiveDir moveOk p
    ((find_converted_pairs srcDir destDir files jpegExists td).filter
      (fun r => !r.alreadyArchived))
    (td, { archived := [], errors := [] }) hready (by simp)
  refine ⟨?_, ?_, ?_, ?_⟩
  · exact hfold.2
  · exact hfold.1
  · intro td2 h2
    simp only [find_converted_pairs, h2]
  · intro hall
    have hnil : (find_converted_pairs srcDir destDir files jpegExists td).filter
        (fun r => !r.alreadyArchived) = [] := by
      rw [List.filter_eq_nil_iff]
      intro q hq
      simp [hall q hq]
    simp [archive_converted_heic_files, hnil]

/-- Tracking data already recording the one converted HEIC file. -/
def c3TD : TrackingData :=
  { convertedFiles := [(["root", "2020", "a.heic"],
      { jpegPath := ["dest", "2020", "a.jpg"], archivePath := ["arc", "2020", "a.heic"] })],
    archiveHistory := [] }

/-- The same `converted_files` with a different `archive_history`. -/
def c3TDAlt : TrackingData :=
  { convertedFiles := c3TD.convertedFiles,
    archiveHistory := [(["stale"], ["entry"])] }

/-- The enumerated source tree: the single already-archived HEIC file. -/
def c3Files : List RelFile := [⟨["2020"], "a", ".heic"⟩]

/-- Witness for C3: re-running archive over an already-archived set moves
nothing and leaves the tracking state unchanged, and pair classification
ignores `archive_history`. -/
theorem claim_C3_witness :
    ["root", "2020", "a.heic"]
        ∉ ((archive_converted_heic_files ["root"] ["dest"] ["arc"] c3Files
            (fun _ => true) (fun _ => true) false c3TD).2.archived.map Prod.fst)
      ∧ lookupA (archive_converted_heic_files ["root"] ["dest"] ["arc"] c3Files
            (fun _ => true) (fun _ => true) false c3TD).1.convertedFiles
            ["root", "2020", "a.heic"]
          = lookupA c3TD.convertedFiles ["root", "2020", "a.heic"]
      ∧ find_converted_pairs ["root"] ["dest"] c3Files (fun _ => true) c3TDAlt
          = find_converted_pairs ["root"] ["dest"] c3Files (fun _ => true) c3TD
      ∧ ((archive_converted_heic_files ["root"] ["dest"] ["arc"] c3Files
            (fun _ => true) (fun _ => true) false c3TD).1 = c3TD
          ∧ (archive_converted_heic_files ["root"] ["dest"] ["arc"] c3Files
              (fun _ => true) (fun _ => true) false c3TD).2.archived = []) := by
  have h := claim_C3_archive_idempotent ["root"] ["dest"] ["arc"] c3Files
    (fun _ => true) (fun _ => true) c3TD ["root", "2020", "a.heic"] (by decide)
  exact ⟨h.1, h.2.1, h.2.2.1 c3TDAlt rfl, h.2.2.2 (by decide)⟩

end ImageConverter
